import Mathlib

/-!
Verification of the subscription / quota / session-pool core of the
StoryDownloader bot (`src/mai.py`), as a shallow embedding in Lean.

Timestamps are modelled as natural numbers counting seconds; a Python
`timedelta(...).days >= 1` test on `now - t` becomes `(now - t) / 86400 >= 1`
(for `t` in the future the Python day count is negative and the Lean natural
subtraction gives `0`; the `>= 1` comparison agrees in both cases).
`timedelta(days = d)` becomes `d * 86400`.
-/

namespace Config

def FREE_DAILY_LIMIT : Nat := 5

def PREMIUM_DAILY_LIMIT : Nat := 50

def FREE_CONCURRENT : Nat := 1

def PREMIUM_CONCURRENT : Nat := 3

def ULTRA_CONCURRENT : Nat := 10

/-- `CACHE_DURATION = timedelta(hours=24)`, in seconds. -/
def CACHE_DURATION : Nat := 86400

end Config

/-- `class SubscriptionTier(Enum)` from `mai.py`. -/
inductive SubscriptionTier where
  | free
  | premium
  | ultra
deriving DecidableEq

/-- `@dataclass class UserData` from `mai.py` (the `settings` bag is kept as
its two concrete entries `silent_mode` and `quality`). -/
structure UserData where
  user_id : Nat
  username : String
  subscription_tier : SubscriptionTier
  subscription_ends : Option Nat
  daily_downloads : Nat
  total_downloads : Nat
  last_reset : Nat
  followed_accounts : List String
  silent_mode : Bool
  quality : String
deriving DecidableEq

/-- `@dataclass class SubscriptionCode` from `mai.py`. -/
structure SubscriptionCode where
  code : String
  tier : SubscriptionTier
  duration : Nat
  max_uses : Nat
  used_count : Nat
  created_at : Nat
  expires_at : Option Nat
deriving DecidableEq

/-- Association-list lookup, modelling Python `dict.get`. -/
def alookup {α β : Type} [DecidableEq α] : List (α × β) → α → Option β
  | [], _ => none
  | (k, v) :: rest, k0 => if k = k0 then some v else alookup rest k0

/-- Association-list update, modelling Python `dict[key] = value`. -/
def upsert {α β : Type} [DecidableEq α] : List (α × β) → α → β → List (α × β)
  | [], k, v => [(k, v)]
  | (k1, v1) :: rest, k, v => if k1 = k then (k, v) :: rest else (k1, v1) :: upsert rest k v

/-- The persistent store seen through `DatabaseManager`: the users collection
(`users.json`, keyed by user id) and the codes collection (`codes.json`,
keyed by code token). -/
structure Database where
  users : List (Nat × UserData)
  codes : List (String × SubscriptionCode)
deriving DecidableEq

/-- `DatabaseManager.get_user`. -/
def dbGetUser (db : Database) (user_id : Nat) : Option UserData :=
  alookup db.users user_id

/-- `DatabaseManager.save_user` (keyed by the record's own `user_id` field,
exactly as `data[str(user_data.user_id)] = user_dict`). -/
def dbSaveUser (db : Database) (u : UserData) : Database :=
  { db with users := upsert db.users u.user_id u }

/-- `DatabaseManager.get_code`: an exact, case-sensitive key lookup
(`data.get(code)`). -/
def dbGetCode (db : Database) (code : String) : Option SubscriptionCode :=
  alookup db.codes code

/-- `DatabaseManager.save_code` (keyed by the record's own `code` field,
exactly as `data[code.code] = code_dict`). -/
def dbSaveCode (db : Database) (cd : SubscriptionCode) : Database :=
  { db with codes := upsert db.codes cd.code cd }

/-- `SubscriptionManager.check_subscription`: loads the user (absent user
gives Free with no expiry); demotes and persists if the stored expiry is
strictly in the past (`datetime.now() > subscription_ends`); resets the
daily counter and persists if at least one whole day elapsed since
`last_reset`; returns the resulting tier and expiry. -/
def check_subscription (db : Database) (now : Nat) (user_id : Nat) :
    Database × SubscriptionTier × Option Nat :=
  match dbGetUser db user_id with
  | none => (db, SubscriptionTier.free, none)
  | some user_data =>
    let expired : Bool :=
      match user_data.subscription_ends with
      | some ends => decide (now > ends)
      | none => false
    let u1 :=
      if expired then
        { user_data with subscription_tier := SubscriptionTier.free, subscription_ends := none }
      else user_data
    let db1 := if expired then dbSaveUser db u1 else db
    let needReset : Bool := decide ((now - u1.last_reset) / 86400 ≥ 1)
    let u2 :=
      if needReset then { u1 with daily_downloads := 0, last_reset := now } else u1
    let db2 := if needReset then dbSaveUser db1 u2 else db1
    (db2, u2.subscription_tier, u2.subscription_ends)

/-- The in-memory record `check_subscription` ends up holding (and, when it
changed, persisting): lazy correction of a stored user record against the
clock (demotion of an expired subscription, then the daily reset). -/
def correctUser (now : Nat) (u : UserData) : UserData :=
  let expired : Bool :=
    match u.subscription_ends with
    | some ends => decide (now > ends)
    | none => false
  let u1 :=
    if expired then
      { u with subscription_tier := SubscriptionTier.free, subscription_ends := none }
    else u
  let needReset : Bool := decide ((now - u1.last_reset) / 86400 ≥ 1)
  if needReset then { u1 with daily_downloads := 0, last_reset := now } else u1

theorem alookup_upsert_self {α β : Type} [DecidableEq α] (l : List (α × β)) (k : α) (v : β) :
    alookup (upsert l k v) k = some v := by
  induction l with
  | nil => simp [alookup, upsert]
  | cons h t ih =>
    obtain ⟨k1, v1⟩ := h
    by_cases hk : k1 = k
    · simp [alookup, upsert, hk]
    · simp [alookup, upsert, hk, ih]

theorem check_subscription_correct (db : Database) (now user_id : Nat) (u : UserData)
    (hu : dbGetUser db user_id = some u) (hk : u.user_id = user_id) :
    (check_subscription db now user_id).2.1 = (correctUser now u).subscription_tier ∧
    (check_subscription db now user_id).2.2 = (correctUser now u).subscription_ends ∧
    dbGetUser (check_subscription db now user_id).1 user_id = some (correctUser now u) := by
  have hu2 : alookup db.users user_id = some u := hu
  rcases hse : u.subscription_ends with _ | e
  · by_cases hres : (now - u.last_reset) / 86400 ≥ 1
    · simp [check_subscription, correctUser, dbGetUser, dbSaveUser, hu2, hse, hres, hk,
        alookup_upsert_self]
    · simp [check_subscription, correctUser, dbGetUser, dbSaveUser, hu2, hse, hres, hk,
        alookup_upsert_self]
  · by_cases hexp : now > e
    · by_cases hres : (now - u.last_reset) / 86400 ≥ 1
      · simp [check_subscription, correctUser, dbGetUser, dbSaveUser, hu2, hse, hexp, hres, hk,
          alookup_upsert_self]
      · simp [check_subscription, correctUser, dbGetUser, dbSaveUser, hu2, hse, hexp, hres, hk,
          alookup_upsert_self]
    · by_cases hres : (now - u.last_reset) / 86400 ≥ 1
      · simp [check_subscription, correctUser, dbGetUser, dbSaveUser, hu2, hse, hexp, hres, hk,
          alookup_upsert_self]
      · simp [check_subscription, correctUser, dbGetUser, dbSaveUser, hu2, hse, hexp, hres, hk,
          alookup_upsert_self]

/-- Claim C1: for every stored user whose subscription expiry is non-null and
strictly before the current time, `check_subscription` returns tier Free with
a null expiry and the resulting store holds the demoted record (Free tier,
cleared expiry); in particular it never returns a non-Free tier for such a
user. -/
theorem claim_C1_expired_user_demoted (db : Database) (now user_id e : Nat) (u : UserData)
    (hu : dbGetUser db user_id = some u) (hk : u.user_id = user_id)
    (he : u.subscription_ends = some e) (hlt : e < now) :
    (check_subscription db now user_id).2.1 = SubscriptionTier.free ∧
    (check_subscription db now user_id).2.2 = none ∧
    ∃ u2, dbGetUser (check_subscription db now user_id).1 user_id = some u2 ∧
      u2.subscription_tier = SubscriptionTier.free ∧ u2.subscription_ends = none := by
  obtain ⟨h1, h2, h3⟩ := check_subscription_correct db now user_id u hu hk
  have hc : (correctUser now u).subscription_tier = SubscriptionTier.free ∧
      (correctUser now u).subscription_ends = none := by
    by_cases hres : (now - u.last_reset) / 86400 ≥ 1
    · simp [correctUser, he, hlt, hres]
    · simp [correctUser, he, hlt, hres]
  exact ⟨hc.1 ▸ h1, hc.2 ▸ h2, correctUser now u, h3, hc.1, hc.2⟩

def sampleUserC1 : UserData :=
  { user_id := 1, username := ("alice"), subscription_tier := SubscriptionTier.premium,
    subscription_ends := some 50, daily_downloads := 2, total_downloads := 9,
    last_reset := 90, followed_accounts := [], silent_mode := false, quality := ("best") }

def sampleDbC1 : Database :=
  { users := [(1, sampleUserC1)], codes := [] }

/-- Claim C1 witness: a concrete premium user whose expiry (50) is strictly
before now (100) is demoted to Free with the expiry cleared and persisted. -/
theorem claim_C1_witness :
    (check_subscription sampleDbC1 100 1).2.1 = SubscriptionTier.free ∧
    (check_subscription sampleDbC1 100 1).2.2 = none ∧
    ∃ u2, dbGetUser (check_subscription sampleDbC1 100 1).1 1 = some u2 ∧
      u2.subscription_tier = SubscriptionTier.free ∧ u2.subscription_ends = none :=
  claim_C1_expired_user_demoted sampleDbC1 100 1 50 sampleUserC1 (by decide) (by decide)
    (by decide) (by decide)

/-- The four failure messages of `SubscriptionManager.activate_code`:
`Invalid code`, `Code has expired`, `Code usage limit reached`,
`User not found`. -/
inductive ActivateError where
  | invalidCode
  | codeExpired
  | codeExhausted
  | userNotFound
deriving DecidableEq

/-- The `Tuple[bool, str]` returned by `activate_code`, with the failure
messages abstracted into `ActivateError`. -/
inductive ActivateResult where
  | failure (e : ActivateError)
  | success
deriving DecidableEq

/-- `code_data.expires_at and datetime.now() > code_data.expires_at`. -/
def codeIsExpired (now : Nat) (cd : SubscriptionCode) : Bool :=
  match cd.expires_at with
  | some e => decide (now > e)
  | none => false

/-- `SubscriptionManager.activate_code`: checks, in order, that the code
exists, is not expired, is not exhausted, and that the user exists; on
success sets the user tier to the code tier, the user expiry to
now + duration days, increments the code redemption count, and persists
the code and then the user record. -/
def activate_code (db : Database) (now user_id : Nat) (code : String) :
    Database × ActivateResult :=
  match dbGetCode db code with
  | none => (db, ActivateResult.failure ActivateError.invalidCode)
  | some code_data =>
    if codeIsExpired now code_data then
      (db, ActivateResult.failure ActivateError.codeExpired)
    else if code_data.used_count ≥ code_data.max_uses then
      (db, ActivateResult.failure ActivateError.codeExhausted)
    else
      match dbGetUser db user_id with
      | none => (db, ActivateResult.failure ActivateError.userNotFound)
      | some user_data =>
        let user_data2 :=
          { user_data with
            subscription_tier := code_data.tier
            subscription_ends := some (now + code_data.duration * 86400) }
        let code_data2 := { code_data with used_count := code_data.used_count + 1 }
        (dbSaveUser (dbSaveCode db code_data2) user_data2, ActivateResult.success)

/-- Claim C2: `activate_code` fails with the first failing check in the
order unknown-code, expired-code, exhausted-code, unknown-user; when every
check passes it sets the user tier to the code tier, the user expiry to
now plus the code duration in days, increments the code redemption count
by one, and persists both records. -/
theorem claim_C2_activate_code_contract (db : Database) (now user_id : Nat) (code : String) :
    (dbGetCode db code = none →
      activate_code db now user_id code = (db, ActivateResult.failure ActivateError.invalidCode)) ∧
    (∀ cd, dbGetCode db code = some cd → codeIsExpired now cd = true →
      activate_code db now user_id code = (db, ActivateResult.failure ActivateError.codeExpired)) ∧
    (∀ cd, dbGetCode db code = some cd → codeIsExpired now cd = false →
      cd.used_count ≥ cd.max_uses →
      activate_code db now user_id code = (db, ActivateResult.failure ActivateError.codeExhausted)) ∧
    (∀ cd, dbGetCode db code = some cd → codeIsExpired now cd = false →
      cd.used_count < cd.max_uses → dbGetUser db user_id = none →
      activate_code db now user_id code = (db, ActivateResult.failure ActivateError.userNotFound)) ∧
    (∀ cd u, dbGetCode db code = some cd → codeIsExpired now cd = false →
      cd.used_count < cd.max_uses → dbGetUser db user_id = some u →
      cd.code = code → u.user_id = user_id →
      (activate_code db now user_id code).2 = ActivateResult.success ∧
      dbGetUser (activate_code db now user_id code).1 user_id =
        some { u with
               subscription_tier := cd.tier
               subscription_ends := some (now + cd.duration * 86400) } ∧
      dbGetCode (activate_code db now user_id code).1 code =
        some { cd with used_count := cd.used_count + 1 }) := by
  refine ⟨?_, ?_, ?_, ?_, ?_⟩
  · intro hc
    simp [activate_code, hc]
  · intro cd hc hexp
    simp [activate_code, hc, hexp]
  · intro cd hc hexp hused
    simp [activate_code, hc, hexp, hused]
  · intro cd hc hexp hused hu
    simp [activate_code, hc, hexp, Nat.not_le.2 hused, hu]
  · intro cd u hc hexp hused hu hck huk
    have hnle : ¬ cd.used_count ≥ cd.max_uses := Nat.not_le.2 hused
    refine ⟨?_, ?_, ?_⟩
    · simp [activate_code, hc, hexp, hnle, hu]
    · simp only [activate_code, hc, hexp, hnle, hu, Bool.false_eq_true, if_false, ite_false]
      simp only [dbGetUser, dbSaveUser, dbSaveCode]
      have : ({ u with
          subscription_tier := cd.tier
          subscription_ends := some (now + cd.duration * 86400) } : UserData).user_id = user_id := huk
      rw [this]
      exact alookup_upsert_self _ user_id _
    · simp only [activate_code, hc, hexp, hnle, Bool.false_eq_true, if_false, ite_false, hu]
      simp only [dbGetCode, dbSaveUser, dbSaveCode]
      have : ({ cd with used_count := cd.used_count + 1 } : SubscriptionCode).code = code := hck
      rw [this]
      exact alookup_upsert_self _ code _

def userC2 : UserData :=
  { user_id := 7, username := ("bob"), subscription_tier := SubscriptionTier.free,
    subscription_ends := none, daily_downloads := 0, total_downloads := 0,
    last_reset := 0, followed_accounts := [], silent_mode := false, quality := ("best") }

def codeC2 : SubscriptionCode :=
  { code := ("ABCD1234WXYZ"), tier := SubscriptionTier.premium, duration := 30,
    max_uses := 1, used_count := 0, created_at := 0, expires_at := none }

def dbC2 : Database :=
  { users := [(7, userC2)], codes := [(("ABCD1234WXYZ"), codeC2)] }

/-- Claim C2 witness: redeeming `ABCD1234WXYZ` (Premium, 30 days, one use)
succeeds, upgrades the user, stamps expiry now + 30 days, bumps the use
count to 1; a second redemption attempt by another user then fails as
exhausted. -/
theorem claim_C2_witness :
    (activate_code dbC2 1000 7 ("ABCD1234WXYZ")).2 = ActivateResult.success ∧
    dbGetUser (activate_code dbC2 1000 7 ("ABCD1234WXYZ")).1 7 =
      some { userC2 with
             subscription_tier := SubscriptionTier.premium
             subscription_ends := some (1000 + 30 * 86400) } ∧
    dbGetCode (activate_code dbC2 1000 7 ("ABCD1234WXYZ")).1 ("ABCD1234WXYZ") =
      some { codeC2 with used_count := 1 } ∧
    (activate_code (activate_code dbC2 1000 7 ("ABCD1234WXYZ")).1 2000 8
        ("ABCD1234WXYZ")).2 = ActivateResult.failure ActivateError.codeExhausted := by
  have h1 := (claim_C2_activate_code_contract dbC2 1000 7 ("ABCD1234WXYZ")).2.2.2.2
    codeC2 userC2 (by decide) (by decide) (by decide) (by decide) rfl rfl
  refine ⟨h1.1, h1.2.1, h1.2.2, ?_⟩
  have h2 := (claim_C2_activate_code_contract
    (activate_code dbC2 1000 7 ("ABCD1234WXYZ")).1 2000 8 ("ABCD1234WXYZ")).2.2.1
    { codeC2 with used_count := 1 } (by decide) (by decide) (by decide)
  rw [h2]

/-- Claim C10: every failing `activate_code` call leaves the persistent
store completely unchanged — no code record and no user record is written. -/
theorem claim_C10_failure_writes_nothing (db : Database) (now user_id : Nat)
    (code : String) (e : ActivateError)
    (hfail : (activate_code db now user_id code).2 = ActivateResult.failure e) :
    (activate_code db now user_id code).1 = db := by
  unfold activate_code at hfail ⊢
  rcases hc : dbGetCode db code with _ | cd
  · rfl
  · rw [hc] at hfail
    by_cases h1 : codeIsExpired now cd = true
    · simp [h1]
    · by_cases h2 : cd.used_count ≥ cd.max_uses
      · simp [h1, h2]
      · rcases hu : dbGetUser db user_id with _ | u
        · simp [h1, h2]
        · rw [hu] at hfail
          simp [h1, h2] at hfail

/-- The lowercase hexadecimal alphabet of a Python `sha256(...).hexdigest()`. -/
def lowerHexChars : List Char := ("0123456789abcdef").data

/-- The uppercase hexadecimal alphabet (a subset of the alphanumerics). -/
def upperHexChars : List Char := ("0123456789ABCDEF").data

/-- The token computation of `SubscriptionManager.create_code`:
`hashlib.sha256(f"{tier}{duration_days}{datetime.now()}".encode()).hexdigest()[:12].upper()`.
The SHA-256 digest itself comes from the external `hashlib` collaborator and
is passed in as `digest`; a hexdigest is a 64-character lowercase-hex string. -/
def create_code_token (digest : List Char) : List Char :=
  (digest.take 12).map Char.toUpper

/-- `expires_at` in `create_code`: `if expires_in_days:` is a Python
truthiness test, so both `None` and `0` leave the expiry unset. -/
def create_code_expiry (now : Nat) (expires_in_days : Option Nat) : Option Nat :=
  match expires_in_days with
  | some d => if d = 0 then none else some (now + d * 86400)
  | none => none

/-- `SubscriptionManager.create_code`: builds the token, the optional expiry,
a fresh `SubscriptionCode` record with zero uses, persists it, and returns
the token. -/
def create_code (db : Database) (now : Nat) (digest : List Char)
    (tier : SubscriptionTier) (duration_days max_uses : Nat)
    (expires_in_days : Option Nat) : Database × String :=
  let code := String.mk (create_code_token digest)
  let code_data : SubscriptionCode :=
    { code := code, tier := tier, duration := duration_days, max_uses := max_uses,
      used_count := 0, created_at := now, expires_at := create_code_expiry now expires_in_days }
  (dbSaveCode db code_data, code)

def digestC8 : List Char :=
  ("7a3f0b2c9d1e7a3f0b2c9d1e7a3f0b2c9d1e7a3f0b2c9d1e7a3f0b2c9d1e7a3f").data

def dbC8 : Database :=
  (create_code { users := [(7, userC2)], codes := [] } 5 digestC8
    SubscriptionTier.premium 30 1 none).1

/-- Claim C8 counterexample: the token issued for `digestC8` is
`7A3F0B2C9D1E`, and redeeming it with its exact casing succeeds, but the
lowercase variant `7a3f0b2c9d1e` of the same issued token is rejected as an
unknown code — `activate_code` does not resolve casing variants to the
stored record. -/
theorem claim_C8_counterexample :
    (create_code { users := [(7, userC2)], codes := [] } 5 digestC8
      SubscriptionTier.premium 30 1 none).2 = ("7A3F0B2C9D1E") ∧
    (activate_code dbC8 10 7 ("7A3F0B2C9D1E")).2 = ActivateResult.success ∧
    (activate_code dbC8 10 7 ("7a3f0b2c9d1e")).2 =
      ActivateResult.failure ActivateError.invalidCode := by
  refine ⟨by decide, by decide, by decide⟩

/-- Claim C8 (amended): `create_code` always returns a case-normalized
(uppercase-hex, hence alphanumeric) token of fixed length 12 whenever the
digest is a 64-character lowercase-hex string, and the issued token, looked
up with its exact casing, resolves to the persisted code record;
`activate_code` resolves codes only by exact, case-sensitive match, so other
casings of an issued token are reported as invalid rather than resolved. -/
theorem claim_C8_token_shape_and_exact_lookup (digest : List Char)
    (hlen : digest.length = 64) (hhex : ∀ c ∈ digest, c ∈ lowerHexChars) :
    (create_code_token digest).length = 12 ∧
    (∀ c ∈ create_code_token digest, c ∈ upperHexChars) ∧
    (∀ db now tier duration_days max_uses expires_in_days,
      dbGetCode (create_code db now digest tier duration_days max_uses expires_in_days).1
          (create_code db now digest tier duration_days max_uses expires_in_days).2 =
        some { code := String.mk (create_code_token digest), tier := tier,
               duration := duration_days, max_uses := max_uses, used_count := 0,
               created_at := now,
               expires_at := create_code_expiry now expires_in_days }) := by
  refine ⟨?_, ?_, ?_⟩
  · simp [create_code_token, hlen]
  · intro c hc
    simp only [create_code_token, List.mem_map] at hc
    obtain ⟨a, ha, rfl⟩ := hc
    have ha2 : a ∈ digest := List.mem_of_mem_take ha
    have ha3 : a ∈ lowerHexChars := hhex a ha2
    have : ∀ b ∈ lowerHexChars, Char.toUpper b ∈ upperHexChars := by decide
    exact this a ha3
  · intro db now tier duration_days max_uses expires_in_days
    simp only [create_code, dbGetCode, dbSaveCode]
    exact alookup_upsert_self _ _ _

/-- Claim C8 witness: the token for the concrete digest `digestC8` has
length 12, consists of uppercase-hex characters, and resolves by exact
lookup to its persisted record. -/
theorem claim_C8_witness :
    (create_code_token digestC8).length = 12 ∧
    (∀ c ∈ create_code_token digestC8, c ∈ upperHexChars) ∧
    dbGetCode (create_code { users := [(7, userC2)], codes := [] } 5 digestC8
        SubscriptionTier.premium 30 1 none).1
      (create_code { users := [(7, userC2)], codes := [] } 5 digestC8
        SubscriptionTier.premium 30 1 none).2 =
      some { code := String.mk (create_code_token digestC8),
             tier := SubscriptionTier.premium, duration := 30, max_uses := 1,
             used_count := 0, created_at := 5, expires_at := create_code_expiry 5 none } := by
  have h := claim_C8_token_shape_and_exact_lookup digestC8 (by decide) (by decide)
  exact ⟨h.1, h.2.1, h.2.2 { users := [(7, userC2)], codes := [] } 5
    SubscriptionTier.premium 30 1 none⟩

/-- `SessionManager` state: the `sessions` dict (name to connection handle,
handles modelled as opaque strings), the `active_sessions` rotation list,
and the shared rotation cursor `session_rotation_index`. -/
structure SessionManager where
  sessions : List (String × String)
  active_sessions : List String
  session_rotation_index : Nat
deriving DecidableEq

/-- `SessionManager.get_next_client`: returns `None` when the active list is
empty; otherwise advances the shared cursor to `(cursor + 1) % len(active)`
and returns `sessions.get(active[cursor])`. -/
def get_next_client (sm : SessionManager) : SessionManager × Option String :=
  if sm.active_sessions = [] then (sm, none)
  else
    let idx := (sm.session_rotation_index + 1) % sm.active_sessions.length
    let session_name := sm.active_sessions.getD idx ("")
    ({ sm with session_rotation_index := idx }, alookup sm.sessions session_name)

theorem alist_getD_mem {α : Type} (l : List α) (i : Nat) (d : α) (h : i < l.length) :
    l.getD i d ∈ l := by
  induction l generalizing i with
  | nil => simp at h
  | cons a t ih =>
    cases i with
    | zero => simp [List.getD_cons_zero]
    | succ n =>
      rw [List.getD_cons_succ]
      exact List.mem_cons_of_mem a (ih n (by simpa using h))

/-- Claim C4: on a pool whose active names all have a stored connection,
`get_next_client` returns `None` exactly when the active list is empty;
otherwise it advances the shared cursor to `(cursor + 1) % len(active)`,
leaves the pool contents untouched, and returns the connection stored under
the name at the new cursor position. -/
theorem claim_C4_round_robin (sm : SessionManager)
    (hwf : ∀ n ∈ sm.active_sessions, (alookup sm.sessions n).isSome = true) :
    ((get_next_client sm).2 = none ↔ sm.active_sessions = []) ∧
    (sm.active_sessions ≠ [] →
      (get_next_client sm).1.session_rotation_index =
        (sm.session_rotation_index + 1) % sm.active_sessions.length ∧
      (get_next_client sm).1.sessions = sm.sessions ∧
      (get_next_client sm).1.active_sessions = sm.active_sessions ∧
      (get_next_client sm).2 =
        alookup sm.sessions
          (sm.active_sessions.getD
            ((sm.session_rotation_index + 1) % sm.active_sessions.length) (""))) := by
  by_cases hemp : sm.active_sessions = []
  · constructor
    · simp [get_next_client, hemp]
    · intro h; exact absurd hemp h
  · have hlen : 0 < sm.active_sessions.length := List.length_pos.2 hemp
    have hidx : (sm.session_rotation_index + 1) % sm.active_sessions.length <
        sm.active_sessions.length := Nat.mod_lt _ hlen
    have hmem := alist_getD_mem sm.active_sessions
      ((sm.session_rotation_index + 1) % sm.active_sessions.length) ("") hidx
    have hsome := hwf _ hmem
    constructor
    · simp only [get_next_client, hemp, if_false, ite_false]
      constructor
      · intro h
        rw [h] at hsome
        simp at hsome
      · intro h; exact h.elim
    · intro _
      refine ⟨?_, ?_, ?_, ?_⟩ <;> simp [get_next_client, hemp]

def smABC : SessionManager :=
  { sessions := [(("a"), ("conn-a")), (("b"), ("conn-b")), (("c"), ("conn-c"))],
    active_sessions := [("a"), ("b"), ("c")], session_rotation_index := 0 }

/-- Claim C4 witness: on the pool `["a", "b", "c"]` with the cursor at 0,
three consecutive calls return the connections at indices 1, 2, 0 — the
spec scenario including wrap-around — via three applications of the
round-robin theorem. -/
theorem claim_C4_witness :
    (get_next_client smABC).2 = some ("conn-b") ∧
    (get_next_client (get_next_client smABC).1).2 = some ("conn-c") ∧
    (get_next_client (get_next_client (get_next_client smABC).1).1).2 = some ("conn-a") := by
  have h1 := (claim_C4_round_robin smABC (by decide)).2 (by decide)
  have h2 := (claim_C4_round_robin (get_next_client smABC).1 (by decide)).2 (by decide)
  have h3 := (claim_C4_round_robin (get_next_client (get_next_client smABC).1).1
    (by decide)).2 (by decide)
  refine ⟨?_, ?_, ?_⟩
  · rw [h1.2.2.2]; decide
  · rw [h2.2.2.2]; decide
  · rw [h3.2.2.2]; decide

/-- The character class `[a-zA-Z0-9_]` of the story-URL regexes. -/
def isWordChar (c : Char) : Bool := c.isAlpha || c.isDigit || c = ('_')

/-- Anchored literal matching, as `re.match` does for the fixed parts of the
patterns: consume `pat` off the front of the input and return the remainder. -/
def matchLit : List Char → List Char → Option (List Char)
  | [], s => some s
  | _ :: _, [] => none
  | c :: p, d :: s => if c = d then matchLit p s else none

/-- The characters of the literal pattern part `https://t\.me/`. -/
def httpsLit : List Char :=
  [('h'), ('t'), ('t'), ('p'), ('s'), (':'), ('/'), ('/'), ('t'), ('.'), ('m'), ('e'), ('/')]

/-- The characters of the literal pattern part `http://t\.me/`
(the regex `https?` with the optional `s` not taken). -/
def httpLit : List Char :=
  [('h'), ('t'), ('t'), ('p'), (':'), ('/'), ('/'), ('t'), ('.'), ('m'), ('e'), ('/')]

theorem httpsLit_chars : httpsLit = ("https://t.me/").data := by decide

theorem httpLit_chars : httpLit = ("http://t.me/").data := by decide

/-- `https?://t\.me/` at the start of the input: try the form with `s`
first, then without (the two cannot both match, diverging at position 4). -/
def stripScheme (s : List Char) : Option (List Char) :=
  match matchLit httpsLit s with
  | some r => some r
  | none => matchLit httpLit s

/-- `int(...)` applied to the digit run captured by `(\d+)`. -/
def digitsToNat (ds : List Char) : Nat :=
  ds.foldl (fun n c => n * 10 + (c.toNat - ('0').toNat)) 0

/-- Pattern 2 after the account and `/`: the greedy `(\d+)` capture —
a nonempty leading digit run (anything may follow, since `re.match` does not
anchor the end). -/
def plainDigits (acc r2 : List Char) : Option (List Char × Nat) :=
  let ds := r2.takeWhile Char.isDigit
  if ds = [] then none else some (acc, digitsToNat ds)

/-- After `https?://t\.me/<account>/` has matched: pattern 1 requires the
literal `s/` followed by at least one digit; if that fails, pattern 2 is
retried on the same remainder and requires a leading digit run.  (Regex
backtracking cannot shorten the greedy account capture, since the account
class has no `/`, so the two patterns differ only from this point on.) -/
def storyBranch (acc r2 : List Char) : Option (List Char × Nat) :=
  match r2 with
  | c1 :: c2 :: r3 =>
    if c1 = ('s') ∧ c2 = ('/') then
      let ds := r3.takeWhile Char.isDigit
      if ds = [] then plainDigits acc r2 else some (acc, digitsToNat ds)
    else plainDigits acc r2
  | _ => plainDigits acc r2

/-- `StoryDownloader.parse_story_url` on the character list of the input:
both regexes demand the scheme and `t.me/`, then a nonempty greedy
`[a-zA-Z0-9_]+` account capture, a `/`, and then `s/(\d+)` (pattern 1,
tried first) or `(\d+)` (pattern 2). -/
def parseUrlChars (s : List Char) : Option (List Char × Nat) :=
  match stripScheme s with
  | none => none
  | some rest =>
    let acc := rest.takeWhile isWordChar
    if acc = [] then none
    else
      match rest.dropWhile isWordChar with
      | '/' :: r2 => storyBranch acc r2
      | _ => none

/-- `StoryDownloader.parse_story_url`: returns the `(account, story id)`
captures of the first matching pattern, and `(None, None)` when neither
pattern matches. -/
def parse_story_url (url : String) : Option String × Option Nat :=
  match parseUrlChars url.data with
  | some (acc, sid) => (some (String.mk acc), some sid)
  | none => (none, none)

theorem matchLit_self_append (p r : List Char) : matchLit p (p ++ r) = some r := by
  induction p with
  | nil => rfl
  | cons c p ih => simpa [matchLit] using ih

theorem takeWhile_all_append {α : Type} (p : α → Bool) (l r : List α)
    (h : ∀ c ∈ l, p c = true) :
    (l ++ r).takeWhile p = l ++ r.takeWhile p := by
  induction l with
  | nil => simp
  | cons a t ih =>
    have ha : p a = true := h a (List.mem_cons_self a t)
    simp only [List.cons_append, List.takeWhile_cons, ha, if_true]
    rw [ih (fun c hc => h c (List.mem_cons_of_mem a hc))]

theorem dropWhile_all_append {α : Type} (p : α → Bool) (l r : List α)
    (h : ∀ c ∈ l, p c = true) :
    (l ++ r).dropWhile p = r.dropWhile p := by
  induction l with
  | nil => simp
  | cons a t ih =>
    have ha : p a = true := h a (List.mem_cons_self a t)
    simp only [List.cons_append, List.dropWhile_cons, ha, if_true]
    exact ih (fun c hc => h c (List.mem_cons_of_mem a hc))

theorem takeWhile_nil_of_head {α : Type} (p : α → Bool) (t : List α)
    (h : ∀ c, t.head? = some c → p c = false) :
    t.takeWhile p = [] := by
  cases t with
  | nil => rfl
  | cons a t2 => simp [List.takeWhile_cons, h a rfl]

theorem stripScheme_https (r : List Char) : stripScheme (httpsLit ++ r) = some r := by
  unfold stripScheme
  rw [matchLit_self_append]

theorem stripScheme_http (r : List Char) : stripScheme (httpLit ++ r) = some r := by
  unfold stripScheme
  have h : matchLit httpsLit (httpLit ++ r) = none := rfl
  rw [h, matchLit_self_append]

theorem parseUrlChars_scheme_form (scheme acc r2 : List Char)
    (hs : stripScheme (scheme ++ (acc ++ ('/') :: r2)) = some (acc ++ ('/') :: r2))
    (hacc : acc ≠ []) (haccw : ∀ c ∈ acc, isWordChar c = true) :
    parseUrlChars (scheme ++ (acc ++ ('/') :: r2)) = storyBranch acc r2 := by
  unfold parseUrlChars
  rw [hs]
  have hslash : isWordChar ('/') = false := rfl
  have h1 : (acc ++ ('/') :: r2).takeWhile isWordChar = acc := by
    rw [takeWhile_all_append _ _ _ haccw]
    simp [List.takeWhile_cons, hslash]
  have h2 : (acc ++ ('/') :: r2).dropWhile isWordChar = ('/') :: r2 := by
    rw [dropWhile_all_append _ _ _ haccw]
    simp [List.dropWhile_cons, hslash]
  simp only [h1, h2, hacc, if_false, ite_false]

theorem storyBranch_s_form (acc d t : List Char) (hd : d ≠ [])
    (hdd : ∀ c ∈ d, c.isDigit = true)
    (ht : ∀ c, t.head? = some c → c.isDigit = false) :
    storyBranch acc (('s') :: ('/') :: (d ++ t)) = some (acc, digitsToNat d) := by
  unfold storyBranch
  have hds : (d ++ t).takeWhile Char.isDigit = d := by
    rw [takeWhile_all_append _ _ _ hdd, takeWhile_nil_of_head _ _ ht]
    simp
  simp [hds, hd]

theorem storyBranch_not_s (acc r2 : List Char)
    (h : ∀ x, r2.head? = some x → x ≠ ('s')) :
    storyBranch acc r2 = plainDigits acc r2 := by
  unfold storyBranch
  rcases r2 with _ | ⟨c1, r⟩
  · rfl
  · rcases r with _ | ⟨c2, r3⟩
    · rfl
    · have hc1 : c1 ≠ ('s') := h c1 rfl
      simp [hc1]

theorem storyBranch_plain_form (acc d t : List Char) (hd : d ≠ [])
    (hdd : ∀ c ∈ d, c.isDigit = true)
    (ht : ∀ c, t.head? = some c → c.isDigit = false) :
    storyBranch acc (d ++ t) = some (acc, digitsToNat d) := by
  rw [storyBranch_not_s]
  · unfold plainDigits
    have hds : (d ++ t).takeWhile Char.isDigit = d := by
      rw [takeWhile_all_append _ _ _ hdd, takeWhile_nil_of_head _ _ ht]
      simp
    simp [hds, hd]
  · intro x hx hxs
    rcases d with _ | ⟨d0, d2⟩
    · exact hd rfl
    · simp only [List.cons_append, List.head?_cons, Option.some.injEq] at hx
      have hd0 : d0.isDigit = true := hdd d0 (List.mem_cons_self d0 d2)
      rw [hx, hxs] at hd0
      exact absurd hd0 (by decide)

theorem parseUrlChars_not_h (s : List Char) (h : s.head? ≠ some ('h')) :
    parseUrlChars s = none := by
  have hstrip : stripScheme s = none := by
    rcases s with _ | ⟨c, s2⟩
    · rfl
    · have hc : c ≠ ('h') := by
        intro he
        exact h (by simp [he])
      simp [stripScheme, httpsLit, httpLit, matchLit, Ne.symm hc]
  unfold parseUrlChars
  rw [hstrip]

/-- Claim C9 counterexample: the claim is false in both directions at
concrete inputs.  `t.me/alice/s/5` is exactly of the claimed form
`t.me/<account>/s/<id>`, yet `parse_story_url` returns `(None, None)`
because both regexes demand an `http://` or `https://` scheme; and
`https://t.me/alice/5xyz` matches neither claimed form (trailing `xyz`),
yet `re.match` does not anchor the end, so the parser returns
`("alice", 5)` instead of `(None, None)`. -/
theorem claim_C9_counterexample :
    parse_story_url ("t.me/alice/s/5") = (none, none) ∧
    parse_story_url ("https://t.me/alice/5xyz") = (some ("alice"), some 5) := by
  constructor
  · decide
  · decide

/-- Claim C9 (amended): for account strings over `[a-zA-Z0-9_]` and nonempty
decimal digit runs, `parse_story_url` maps
`http(s)://t.me/<account>/s/<digits>` and `http(s)://t.me/<account>/<digits>`
— each optionally followed by arbitrary text not starting with a digit — to
`(account, value of digits)`; and every input that does not even start with
the character `h` (in particular every scheme-less `t.me/...` form) is
rejected with `(None, None)`. -/
theorem claim_C9_url_grammar (acc d t : List Char)
    (hacc : acc ≠ []) (haccw : ∀ c ∈ acc, isWordChar c = true)
    (hd : d ≠ []) (hdd : ∀ c ∈ d, c.isDigit = true)
    (ht : ∀ c, t.head? = some c → c.isDigit = false) :
    parse_story_url
        (String.mk (httpsLit ++ (acc ++ ('/') :: (('s') :: ('/') :: (d ++ t))))) =
      (some (String.mk acc), some (digitsToNat d)) ∧
    parse_story_url (String.mk (httpsLit ++ (acc ++ ('/') :: (d ++ t)))) =
      (some (String.mk acc), some (digitsToNat d)) ∧
    parse_story_url
        (String.mk (httpLit ++ (acc ++ ('/') :: (('s') :: ('/') :: (d ++ t))))) =
      (some (String.mk acc), some (digitsToNat d)) ∧
    parse_story_url (String.mk (httpLit ++ (acc ++ ('/') :: (d ++ t)))) =
      (some (String.mk acc), some (digitsToNat d)) ∧
    (∀ s : List Char, s.head? ≠ some ('h') →
      parse_story_url (String.mk s) = (none, none)) := by
  refine ⟨?_, ?_, ?_, ?_, ?_⟩
  · show (match parseUrlChars (httpsLit ++ (acc ++ ('/') :: (('s') :: ('/') :: (d ++ t)))) with
      | some (a, sid) => (some (String.mk a), some sid)
      | none => (none, none)) = (some (String.mk acc), some (digitsToNat d))
    rw [parseUrlChars_scheme_form _ _ _ (stripScheme_https _) hacc haccw,
      storyBranch_s_form _ _ _ hd hdd ht]
  · show (match parseUrlChars (httpsLit ++ (acc ++ ('/') :: (d ++ t))) with
      | some (a, sid) => (some (String.mk a), some sid)
      | none => (none, none)) = (some (String.mk acc), some (digitsToNat d))
    rw [parseUrlChars_scheme_form _ _ _ (stripScheme_https _) hacc haccw,
      storyBranch_plain_form _ _ _ hd hdd ht]
  · show (match parseUrlChars (httpLit ++ (acc ++ ('/') :: (('s') :: ('/') :: (d ++ t)))) with
      | some (a, sid) => (some (String.mk a), some sid)
      | none => (none, none)) = (some (String.mk acc), some (digitsToNat d))
    rw [parseUrlChars_scheme_form _ _ _ (stripScheme_http _) hacc haccw,
      storyBranch_s_form _ _ _ hd hdd ht]
  · show (match parseUrlChars (httpLit ++ (acc ++ ('/') :: (d ++ t))) with
      | some (a, sid) => (some (String.mk a), some sid)
      | none => (none, none)) = (some (String.mk acc), some (digitsToNat d))
    rw [parseUrlChars_scheme_form _ _ _ (stripScheme_http _) hacc haccw,
      storyBranch_plain_form _ _ _ hd hdd ht]
  · intro s hs
    show (match parseUrlChars s with
      | some (a, sid) => (some (String.mk a), some sid)
      | none => (none, none)) = ((none : Option String), (none : Option Nat))
    rw [parseUrlChars_not_h s hs]

def aliceChars : List Char := ("alice").data

def digit5 : List Char := [('5')]

/-- Claim C9 witness: the amended grammar theorem applied to the account
`alice`, digits `5`, and empty trailing text: both path shapes with both
schemes parse to `("alice", 5)`, and the scheme-less `t.me/alice/s/5` is
rejected. -/
theorem claim_C9_witness :
    parse_story_url (String.mk (httpsLit ++
        (aliceChars ++ ('/') :: (('s') :: ('/') :: (digit5 ++ ([] : List Char)))))) =
      (some (String.mk aliceChars), some (digitsToNat digit5)) ∧
    parse_story_url (String.mk (httpLit ++
        (aliceChars ++ ('/') :: (digit5 ++ ([] : List Char))))) =
      (some (String.mk aliceChars), some (digitsToNat digit5)) ∧
    parse_story_url (String.mk (("t.me/alice/s/5").data)) = (none, none) := by
  have h := claim_C9_url_grammar aliceChars digit5 ([] : List Char)
    (by decide) (by decide) (by decide) (by decide) (by decide)
  exact ⟨h.1, h.2.2.2.1, h.2.2.2.2 (("t.me/alice/s/5").data) (by decide)⟩

/-- Claim C10 witness: a concrete failing redemption (unknown code) leaves
the concrete store unchanged. -/
theorem claim_C10_witness : (activate_code dbC2 5 7 ("UNKNOWNCODE1")).1 = dbC2 :=
  claim_C10_failure_writes_nothing dbC2 5 7 ("UNKNOWNCODE1")
    ActivateError.invalidCode (by decide)

/-- The media attached to a fetched story, as inspected by
`download_story`: `hasattr(story.media, 'photo')`,
`hasattr(story.media, 'document')` (with the document's `mime_type` and
`attributes`), or neither. -/
inductive MediaKind where
  | photo
  | document (mime_type : Option String) (attributes : List String)
  | other
deriving DecidableEq

/-- The first non-FloodWait outcome of the backend interaction inside the
`try` block of `download_story`: the `GetStoriesByIDRequest` result has no
stories, some other client call raises, or a story with its media arrives. -/
inductive FinalResp where
  | storyMissing
  | clientError
  | media (kind : MediaKind)
deriving DecidableEq

/-- How one `download_story` call finishes: a raised exception with its
message (propagates to the caller) or a returned value (`None` or a file
path). -/
inductive DLOutcome where
  | raised (msg : String)
  | returned (p : Option String)
deriving DecidableEq

/-- The filename-extension logic of `download_story`: `.jpg` for photos;
for documents the part of the mime type after `/` (with the
`octet-stream` special case deciding between `mp4` and `bin` by the
`Video` / `Audio` attribute test); `None` means the
`Unsupported media type` branch. -/
def storyExt : MediaKind → Option String
  | MediaKind.photo => some (".jpg")
  | MediaKind.document mime_type attributes =>
    let m := mime_type.getD ("bin")
    let ext0 := (m.splitOn ("/")).getLastD ("")
    let ext :=
      if ext0 = ("octet-stream") then
        if attributes.contains ("Video") || attributes.contains ("Audio") then ("mp4")
        else ("bin")
      else ext0
    some ((".") ++ ext)
  | MediaKind.other => none

/-- `StoryDownloader.download_story`, with the backend (Telegram client)
abstracted as a finite trace: `floods` are the seconds of the successive
`FloodWaitError` signals (on each, the code sleeps that many seconds and
re-invokes `download_story` from the top), and `final` is the first
non-FloodWait backend outcome.  The result carries the updated store, the
updated session pool, the list of sleeps performed (in order), and the
outcome.  Faithful details: the user record is loaded before
`check_subscription` runs, so the quota test and the final counter update
use that possibly stale record; an absent user returns `None`; quota and
no-session failures are raised *before* the `try` block and so propagate;
everything raised inside the `try` block other than `FloodWaitError`
(missing story, client errors, unsupported media) is caught and turned
into a returned `None`. -/
def download_story (db : Database) (sm : SessionManager) (now user_id : Nat)
    (username : String) (story_id : Nat) (floods : List Nat) (final : FinalResp) :
    Database × SessionManager × List Nat × DLOutcome :=
  match dbGetUser db user_id with
  | none => (db, sm, [], DLOutcome.returned none)
  | some user_data =>
    let cs := check_subscription db now user_id
    let overLimit : Bool :=
      match cs.2.1 with
      | SubscriptionTier.free => decide (user_data.daily_downloads ≥ Config.FREE_DAILY_LIMIT)
      | SubscriptionTier.premium =>
        decide (user_data.daily_downloads ≥ Config.PREMIUM_DAILY_LIMIT)
      | SubscriptionTier.ultra => false
    if overLimit then (cs.1, sm, [], DLOutcome.raised ("Daily download limit reached"))
    else
      let gn := get_next_client sm
      match gn.2 with
      | none => (cs.1, gn.1, [], DLOutcome.raised ("No active sessions available"))
      | some _client =>
        match floods with
        | n :: rest =>
          let r := download_story cs.1 gn.1 now user_id username story_id rest final
          (r.1, r.2.1, n :: r.2.2.1, r.2.2.2)
        | [] =>
          match final with
          | FinalResp.storyMissing => (cs.1, gn.1, [], DLOutcome.returned none)
          | FinalResp.clientError => (cs.1, gn.1, [], DLOutcome.returned none)
          | FinalResp.media kind =>
            match storyExt kind with
            | none => (cs.1, gn.1, [], DLOutcome.returned none)
            | some ext =>
              let filename :=
                username ++ ("_") ++ toString story_id ++ ("_") ++ toString now ++ ext
              let file_path := ("downloads/") ++ toString user_id ++ ("/") ++ filename
              let u2 :=
                { user_data with
                  daily_downloads := user_data.daily_downloads + 1
                  total_downloads := user_data.total_downloads + 1 }
              (dbSaveUser cs.1 u2, gn.1, [], DLOutcome.returned (some file_path))

theorem correctUser_tier_free (now : Nat) (u : UserData)
    (ht : u.subscription_tier = SubscriptionTier.free) :
    (correctUser now u).subscription_tier = SubscriptionTier.free := by
  rcases hse : u.subscription_ends with _ | e
  · by_cases hres : (now - u.last_reset) / 86400 ≥ 1 <;> simp [correctUser, hse, hres, ht]
  · by_cases hexp : now > e <;> by_cases hres : (now - u.last_reset) / 86400 ≥ 1 <;>
      simp [correctUser, hse, hexp, hres, ht]

theorem correctUser_no_reset (now : Nat) (u : UserData)
    (hr : now - u.last_reset < 86400) :
    (correctUser now u).daily_downloads = u.daily_downloads ∧
    (correctUser now u).total_downloads = u.total_downloads := by
  have hres : ¬ (now - u.last_reset) / 86400 ≥ 1 := by
    rw [Nat.div_eq_of_lt hr]
    decide
  rcases hse : u.subscription_ends with _ | e
  · simp [correctUser, hse, hres]
  · by_cases hexp : now > e <;> simp [correctUser, hse, hexp, hres]

/-- Claim C3: a stored Free-tier user already at the Free daily limit of 5,
whose daily reset is not yet due, gets `QuotaExceeded` (the raised
`Daily download limit reached`) from `download_story`; the session pool is
returned exactly as it was (no session acquired, no cursor advance, no
sleeps), and the user's stored daily and lifetime counters are unchanged. -/
theorem claim_C3_quota_blocks_before_session (db : Database) (sm : SessionManager)
    (now user_id : Nat) (username : String) (story_id : Nat)
    (floods : List Nat) (final : FinalResp) (u : UserData)
    (hu : dbGetUser db user_id = some u) (hk : u.user_id = user_id)
    (ht : u.subscription_tier = SubscriptionTier.free)
    (hd : u.daily_downloads = Config.FREE_DAILY_LIMIT)
    (hr : now - u.last_reset < 86400) :
    ∃ db1, download_story db sm now user_id username story_id floods final =
      (db1, sm, [], DLOutcome.raised ("Daily download limit reached")) ∧
    ∃ u2, dbGetUser db1 user_id = some u2 ∧
      u2.daily_downloads = u.daily_downloads ∧
      u2.total_downloads = u.total_downloads := by
  obtain ⟨h1, _h2, h3⟩ := check_subscription_correct db now user_id u hu hk
  have htier : (check_subscription db now user_id).2.1 = SubscriptionTier.free := by
    rw [h1, correctUser_tier_free now u ht]
  obtain ⟨hcd, hct⟩ := correctUser_no_reset now u hr
  refine ⟨(check_subscription db now user_id).1, ?_, correctUser now u, h3, hcd, hct⟩
  unfold download_story
  rw [hu]
  simp only [htier, hd]
  simp

def userC3 : UserData :=
  { user_id := 3, username := ("carol"), subscription_tier := SubscriptionTier.free,
    subscription_ends := none, daily_downloads := 5, total_downloads := 11,
    last_reset := 50, followed_accounts := [], silent_mode := false, quality := ("best") }

def dbC3 : Database := { users := [(3, userC3)], codes := [] }

/-- Claim C3 witness: a concrete Free user with `daily_downloads = 5` and a
fresh reset gets the quota failure, the pool is untouched, and the stored
counters stay at 5 and 11. -/
theorem claim_C3_witness :
    ∃ db1, download_story dbC3 smABC 60 3 ("alice") 5 [] FinalResp.storyMissing =
      (db1, smABC, [], DLOutcome.raised ("Daily download limit reached")) ∧
    ∃ u2, dbGetUser db1 3 = some u2 ∧
      u2.daily_downloads = userC3.daily_downloads ∧
      u2.total_downloads = userC3.total_downloads :=
  claim_C3_quota_blocks_before_session dbC3 smABC 60 3 ("alice") 5 []
    FinalResp.storyMissing userC3 (by decide) (by decide) (by decide) (by decide) (by decide)

theorem correctUser_ends_none (now : Nat) (u : UserData)
    (he : u.subscription_ends = none) :
    (correctUser now u).subscription_tier = u.subscription_tier ∧
    (correctUser now u).subscription_ends = none ∧
    (correctUser now u).user_id = u.user_id := by
  by_cases hres : (now - u.last_reset) / 86400 ≥ 1 <;> simp [correctUser, he, hres]

theorem get_next_client_some (sm : SessionManager) (hs : sm.active_sessions ≠ [])
    (hwf : ∀ n ∈ sm.active_sessions, (alookup sm.sessions n).isSome = true) :
    (∃ c, (get_next_client sm).2 = some c) ∧
    (get_next_client sm).1.sessions = sm.sessions ∧
    (get_next_client sm).1.active_sessions = sm.active_sessions := by
  have hlen : 0 < sm.active_sessions.length := List.length_pos.2 hs
  have hidx : (sm.session_rotation_index + 1) % sm.active_sessions.length <
      sm.active_sessions.length := Nat.mod_lt _ hlen
  have hmem := alist_getD_mem sm.active_sessions
    ((sm.session_rotation_index + 1) % sm.active_sessions.length) ("") hidx
  have hsome := hwf _ hmem
  refine ⟨?_, ?_, ?_⟩
  · rcases ho : alookup sm.sessions
      (sm.active_sessions.getD
        ((sm.session_rotation_index + 1) % sm.active_sessions.length) ("")) with _ | c
    · rw [ho] at hsome
      simp at hsome
    · refine ⟨c, ?_⟩
      unfold get_next_client
      rw [if_neg hs]
      exact ho
  · unfold get_next_client
    rw [if_neg hs]
  · unfold get_next_client
    rw [if_neg hs]

/-- Claim C5: with a user the quota never blocks (Ultra, no stored expiry)
and a well-formed nonempty pool, `download_story` performs, for an
arbitrarily long sequence of rate-limit signals, exactly the signalled
sleeps in order — no retry-count cap and no cumulative wait budget — and
each signal is followed by a full retry, so the call still reaches the
backend's final response and finishes with a returned result. -/
theorem claim_C5_unbounded_flood_retry (now user_id : Nat) (username : String)
    (story_id : Nat) (final : FinalResp) :
    ∀ (floods : List Nat) (db : Database) (sm : SessionManager) (u : UserData),
      dbGetUser db user_id = some u → u.user_id = user_id →
      u.subscription_tier = SubscriptionTier.ultra → u.subscription_ends = none →
      sm.active_sessions ≠ [] →
      (∀ n ∈ sm.active_sessions, (alookup sm.sessions n).isSome = true) →
      (download_story db sm now user_id username story_id floods final).2.2.1 = floods ∧
      ∃ p, (download_story db sm now user_id username story_id floods final).2.2.2 =
        DLOutcome.returned p := by
  intro floods
  induction floods with
  | nil =>
    intro db sm u hu hk ht he hs hwf
    obtain ⟨h1, _h2, h3⟩ := check_subscription_correct db now user_id u hu hk
    obtain ⟨hct, hce, hci⟩ := correctUser_ends_none now u he
    have htier : (check_subscription db now user_id).2.1 = SubscriptionTier.ultra := by
      rw [h1, hct, ht]
    obtain ⟨⟨c, hc⟩, hsess, hact⟩ := get_next_client_some sm hs hwf
    unfold download_story
    rw [hu]
    rcases final with _ | _ | kind
    · simp [htier, hc]
    · simp [htier, hc]
    · rcases hext : storyExt kind with _ | ext
      · simp [htier, hc, hext]
      · simp [htier, hc, hext]
  | cons n rest ih =>
    intro db sm u hu hk ht he hs hwf
    obtain ⟨h1, _h2, h3⟩ := check_subscription_correct db now user_id u hu hk
    obtain ⟨hct, hce, hci⟩ := correctUser_ends_none now u he
    have htier : (check_subscription db now user_id).2.1 = SubscriptionTier.ultra := by
      rw [h1, hct, ht]
    obtain ⟨⟨c, hc⟩, hsess, hact⟩ := get_next_client_some sm hs hwf
    have hs2 : (get_next_client sm).1.active_sessions ≠ [] := by
      rw [hact]; exact hs
    have hwf2 : ∀ nm ∈ (get_next_client sm).1.active_sessions,
        (alookup (get_next_client sm).1.sessions nm).isSome = true := by
      intro nm hm
      rw [hsess]
      exact hwf nm (by rwa [hact] at hm)
    obtain ⟨ih1, p, ih2⟩ := ih (check_subscription db now user_id).1 (get_next_client sm).1
      (correctUser now u) h3 (hci.trans hk) (hct.trans ht) hce hs2 hwf2
    unfold download_story
    rw [hu]
    simp only [htier, hc]
    constructor
    · simp [ih1]
    · exact ⟨p, by simpa using ih2⟩

def userC5 : UserData :=
  { user_id := 4, username := ("dave"), subscription_tier := SubscriptionTier.ultra,
    subscription_ends := none, daily_downloads := 40, total_downloads := 900,
    last_reset := 50, followed_accounts := [], silent_mode := false, quality := ("best") }

def dbC5 : Database := { users := [(4, userC5)], codes := [] }

/-- Claim C5 witness: three successive rate-limit signals of 3, 5 and 2
seconds produce exactly the sleeps `[3, 5, 2]` and the download still
reaches the final response. -/
theorem claim_C5_witness :
    (download_story dbC5 smABC 100 4 ("alice") 5 [3, 5, 2]
      (FinalResp.media MediaKind.photo)).2.2.1 = [3, 5, 2] ∧
    ∃ p, (download_story dbC5 smABC 100 4 ("alice") 5 [3, 5, 2]
      (FinalResp.media MediaKind.photo)).2.2.2 = DLOutcome.returned p :=
  claim_C5_unbounded_flood_retry 100 4 ("alice") 5 (FinalResp.media MediaKind.photo)
    [3, 5, 2] dbC5 smABC userC5 (by decide) (by decide) (by decide) (by decide)
    (by decide) (by decide)

theorem download_story_missing_eq_error (now user_id : Nat) (username : String)
    (story_id : Nat) :
    ∀ (floods : List Nat) (db : Database) (sm : SessionManager),
      download_story db sm now user_id username story_id floods FinalResp.storyMissing =
      download_story db sm now user_id username story_id floods FinalResp.clientError := by
  intro floods
  induction floods with
  | nil =>
    intro db sm
    unfold download_story
    split
    · rfl
    · dsimp only
  | cons n rest ih =>
    intro db sm
    unfold download_story
    split
    · rfl
    · dsimp only
      split
      · rfl
      · split
        · rfl
        · rw [ih]

theorem download_story_raised_msgs (now user_id : Nat) (username : String)
    (story_id : Nat) (final : FinalResp) :
    ∀ (floods : List Nat) (db : Database) (sm : SessionManager) (msg : String),
      (download_story db sm now user_id username story_id floods final).2.2.2 =
        DLOutcome.raised msg →
      msg = ("Daily download limit reached") ∨ msg = ("No active sessions available") := by
  intro floods
  induction floods with
  | nil =>
    intro db sm msg h
    unfold download_story at h
    split at h
    · simp at h
    · dsimp only at h
      split at h
      · simp at h
        exact Or.inl h.symm
      · split at h
        · simp at h
          exact Or.inr h.symm
        · rcases final with _ | _ | kind
          · simp at h
          · simp at h
          · dsimp only at h
            rcases hext : storyExt kind with _ | ext
            · rw [hext] at h
              simp at h
            · rw [hext] at h
              simp at h
  | cons n rest ih =>
    intro db sm msg h
    unfold download_story at h
    split at h
    · simp at h
    · dsimp only at h
      split at h
      · simp at h
        exact Or.inl h.symm
      · split at h
        · simp at h
          exact Or.inr h.symm
        · dsimp only at h
          exact ih _ _ _ h

def userC6 : UserData :=
  { user_id := 9, username := ("erin"), subscription_tier := SubscriptionTier.ultra,
    subscription_ends := none, daily_downloads := 2, total_downloads := 7,
    last_reset := 90, followed_accounts := [], silent_mode := false, quality := ("best") }

def dbC6 : Database := { users := [(9, userC6)], codes := [] }

/-- Claim C6 counterexample: with every precondition satisfied, a backend
answer of "no such story" makes `download_story` return the generic `None`
— bit-for-bit the same result as an arbitrary other client error — instead
of propagating a distinguishable typed `StoryNotFound` failure to the
caller: the `except Exception` handler swallows it. -/
theorem claim_C6_counterexample :
    (download_story dbC6 smABC 100 9 ("alice") 5 [] FinalResp.storyMissing).2.2.2 =
      DLOutcome.returned none ∧
    download_story dbC6 smABC 100 9 ("alice") 5 [] FinalResp.storyMissing =
      download_story dbC6 smABC 100 9 ("alice") 5 [] FinalResp.clientError := by
  constructor
  · decide
  · decide

/-- Claim C6 (amended): the rate-limit signal is the only condition
`download_story` recovers from locally (wait and retry); the only failures
that propagate to the caller as exceptions are the quota and no-session
checks made before the `try` block; every failure inside the fetch itself —
in particular a story missing on the backend — is caught and converted into
the generic returned `None`, indistinguishable from any other client
error. -/
theorem claim_C6_raised_only_pre_try (now user_id : Nat) (username : String)
    (story_id : Nat) :
    (∀ (final : FinalResp) (floods : List Nat) (db : Database) (sm : SessionManager)
      (msg : String),
      (download_story db sm now user_id username story_id floods final).2.2.2 =
        DLOutcome.raised msg →
      msg = ("Daily download limit reached") ∨ msg = ("No active sessions available")) ∧
    (∀ (floods : List Nat) (db : Database) (sm : SessionManager),
      download_story db sm now user_id username story_id floods FinalResp.storyMissing =
      download_story db sm now user_id username story_id floods FinalResp.clientError) :=
  ⟨fun final floods db sm msg h =>
    download_story_raised_msgs now user_id username story_id final floods db sm msg h,
   fun floods db sm =>
    download_story_missing_eq_error now user_id username story_id floods db sm⟩

/-- Claim C6 witness: the quota failure of a concrete at-limit Free user is
one of the two pre-`try` exception messages, and on a concrete passing
state the missing-story result coincides with the generic client-error
result. -/
theorem claim_C6_witness :
    (("Daily download limit reached") = ("Daily download limit reached") ∨
      ("Daily download limit reached") = ("No active sessions available")) ∧
    download_story dbC3 smABC 60 3 ("alice") 5 [7] FinalResp.storyMissing =
      download_story dbC3 smABC 60 3 ("alice") 5 [7] FinalResp.clientError :=
  ⟨(claim_C6_raised_only_pre_try 60 3 ("alice") 5).1 FinalResp.storyMissing []
      dbC3 smABC ("Daily download limit reached") (by decide),
   (claim_C6_raised_only_pre_try 60 3 ("alice") 5).2 [7] dbC3 smABC⟩

/-- A raw timestamp field as stored in `users.json`: an isoformat string
that parses to a time, or a malformed value. -/
inductive RawTime where
  | valid (t : Nat)
  | malformed
deriving DecidableEq

/-- A raw user record as `scheduled_tasks` sees it: the JSON dict loaded
from `users.json`, with the timestamp fields still unparsed (`None` for an
absent or null field). -/
structure RawUser where
  username : String
  subscription_tier : String
  subscription_ends : Option RawTime
  daily_downloads : Nat
  total_downloads : Nat
  last_reset : Option RawTime
deriving DecidableEq

/-- `datetime.fromisoformat` applied to a raw field: raises (`TypeError` on
`None`, `ValueError` on a malformed string) unless the field holds a valid
timestamp. -/
def fromisoformat : Option RawTime → Except Unit Nat
  | some (RawTime.valid t) => Except.ok t
  | _ => Except.error ()

/-- Phase 1 of `scheduled_tasks` for one record: parse `last_reset` (an
exception here propagates) and zero the daily counter when at least one
whole day has elapsed, stamping `last_reset` to now. -/
def quotaResetUser (now : Nat) (u : RawUser) : Except Unit RawUser :=
  match fromisoformat u.last_reset with
  | Except.error e => Except.error e
  | Except.ok t =>
    if (now - t) / 86400 ≥ 1 then
      Except.ok { u with daily_downloads := 0, last_reset := some (RawTime.valid now) }
    else Except.ok u

/-- Phase 2 of `scheduled_tasks` for one record: skip when
`subscription_ends` is falsy; otherwise parse it (an exception propagates)
and, when it is in the past, set the tier to `free`, clear the expiry, and
attempt the user notification — whose success or failure (`notified`) is
discarded by the `try`/`except: pass`. -/
def expirySweepUser (now : Nat) (notified : Bool) (u : RawUser) : Except Unit RawUser :=
  match u.subscription_ends with
  | none => Except.ok u
  | some rt =>
    match fromisoformat (some rt) with
    | Except.error e => Except.error e
    | Except.ok ends =>
      if now > ends then
        let _sent := notified
        Except.ok { u with subscription_tier := ("free"), subscription_ends := none }
      else Except.ok u

/-- One `for user_id, user_data in users_data.items()` loop: apply the
per-record step to every record in order, propagating the first
exception. -/
def sweepAll (f : Nat → RawUser → Except Unit RawUser) :
    List (Nat × RawUser) → Except Unit (List (Nat × RawUser))
  | [] => Except.ok []
  | (k, u) :: rest =>
    match f k u with
    | Except.error e => Except.error e
    | Except.ok u2 =>
      match sweepAll f rest with
      | Except.error e => Except.error e
      | Except.ok rest2 => Except.ok ((k, u2) :: rest2)

/-- `scheduled_tasks`: the quota-reset loop, then `save_json` (first
snapshot), then the expiry-sweep loop over the updated records, then
`save_json` again (second snapshot), then the in-memory cache prune
(entries younger than `CACHE_DURATION` survive).  The first component
lists the snapshots actually passed to `save_json`, in order; an exception
anywhere aborts the remaining phases and propagates to the caller
(`Except.error`). -/
def scheduled_tasks (now : Nat) (users : List (Nat × RawUser)) (notify : Nat → Bool)
    (cache : List (String × Nat)) :
    List (List (Nat × RawUser)) ×
      Except Unit (List (Nat × RawUser) × List (String × Nat)) :=
  match sweepAll (fun _ u => quotaResetUser now u) users with
  | Except.error _ => ([], Except.error ())
  | Except.ok users1 =>
    match sweepAll (fun k u => expirySweepUser now (notify k) u) users1 with
    | Except.error _ => ([users1], Except.error ())
    | Except.ok users2 =>
      ([users1, users2],
        Except.ok (users2,
          cache.filter (fun kv => decide (now - kv.2 < Config.CACHE_DURATION))))

/-- Whether a raw record parses cleanly in both phases: a valid
`last_reset` and a `subscription_ends` that is absent or valid. -/
def rawParses (u : RawUser) : Bool :=
  (match u.last_reset with
   | some (RawTime.valid _) => true
   | _ => false) &&
  (match u.subscription_ends with
   | some RawTime.malformed => false
   | _ => true)

theorem rawParses_last (u : RawUser) (h : rawParses u = true) :
    ∃ t, u.last_reset = some (RawTime.valid t) := by
  unfold rawParses at h
  rcases hlr : u.last_reset with _ | rt
  · rw [hlr] at h; simp at h
  · rcases rt with t | _
    · exact ⟨t, rfl⟩
    · rw [hlr] at h; simp at h

theorem rawParses_ends (u : RawUser) (h : rawParses u = true) :
    u.subscription_ends ≠ some RawTime.malformed := by
  unfold rawParses at h
  intro he
  rw [he] at h
  simp at h

theorem quotaResetUser_ok (now : Nat) (u : RawUser) (h : rawParses u = true) :
    ∃ u2, quotaResetUser now u = Except.ok u2 := by
  obtain ⟨t, hlr⟩ := rawParses_last u h
  by_cases hres : (now - t) / 86400 ≥ 1
  · exact ⟨{ u with daily_downloads := 0, last_reset := some (RawTime.valid now) },
      by simp [quotaResetUser, hlr, fromisoformat, hres]⟩
  · exact ⟨u, by simp [quotaResetUser, hlr, fromisoformat, hres]⟩

theorem quotaResetUser_keeps_ends (now : Nat) (u u2 : RawUser)
    (h : quotaResetUser now u = Except.ok u2) :
    u2.subscription_ends = u.subscription_ends := by
  unfold quotaResetUser at h
  rcases hf : fromisoformat u.last_reset with _ | t
  · rw [hf] at h
    exact Except.noConfusion h
  · rw [hf] at h
    dsimp only at h
    by_cases hres : (now - t) / 86400 ≥ 1
    · rw [if_pos hres] at h
      cases h
      rfl
    · rw [if_neg hres] at h
      cases h
      rfl

theorem expirySweepUser_ok (now : Nat) (b : Bool) (u : RawUser)
    (h : u.subscription_ends ≠ some RawTime.malformed) :
    ∃ u2, expirySweepUser now b u = Except.ok u2 := by
  rcases hse : u.subscription_ends with _ | rt
  · exact ⟨u, by simp [expirySweepUser, hse]⟩
  · rcases rt with e | _
    · by_cases hlt : now > e
      · exact ⟨{ u with subscription_tier := ("free"), subscription_ends := none },
          by simp [expirySweepUser, hse, fromisoformat, hlt]⟩
      · exact ⟨u, by simp [expirySweepUser, hse, fromisoformat, hlt]⟩
    · exact absurd hse h

theorem expirySweepUser_demotes (now : Nat) (b : Bool) (u : RawUser) (e : Nat)
    (he : u.subscription_ends = some (RawTime.valid e)) (hlt : e < now) :
    expirySweepUser now b u = Except.ok
      { u with subscription_tier := ("free"), subscription_ends := none } := by
  simp [expirySweepUser, he, fromisoformat, hlt]

theorem sweepAll_ok (f : Nat → RawUser → Except Unit RawUser) :
    ∀ l : List (Nat × RawUser),
      (∀ k u, (k, u) ∈ l → ∃ v, f k u = Except.ok v) →
      ∃ l2, sweepAll f l = Except.ok l2 := by
  intro l
  induction l with
  | nil => intro _; exact ⟨[], rfl⟩
  | cons a t ih =>
    intro hall
    obtain ⟨ka, ua⟩ := a
    obtain ⟨v, hv⟩ := hall ka ua (List.mem_cons_self _ _)
    obtain ⟨t2, ht2⟩ := ih (fun k u hm => hall k u (List.mem_cons_of_mem _ hm))
    exact ⟨(ka, v) :: t2, by simp [sweepAll, hv, ht2]⟩

theorem sweepAll_mem (f : Nat → RawUser → Except Unit RawUser) :
    ∀ (l l2 : List (Nat × RawUser)), sweepAll f l = Except.ok l2 →
      ∀ k u, (k, u) ∈ l → ∃ u2, f k u = Except.ok u2 ∧ (k, u2) ∈ l2 := by
  intro l
  induction l with
  | nil =>
    intro l2 _ k u hm
    simp at hm
  | cons a t ih =>
    intro l2 h k u hm
    obtain ⟨ka, ua⟩ := a
    unfold sweepAll at h
    rcases hf : f ka ua with _ | ua2
    · rw [hf] at h
      exact Except.noConfusion h
    · rw [hf] at h
      rcases ht : sweepAll f t with _ | t2
      · rw [ht] at h
        exact Except.noConfusion h
      · rw [ht] at h
        cases h
        rcases List.mem_cons.1 hm with heq | hmem
        · obtain ⟨hk, hu⟩ := Prod.mk.injEq .. ▸ heq
          subst hk
          subst hu
          exact ⟨ua2, hf, List.mem_cons_self _ _⟩
        · obtain ⟨u2, hfu, hmem2⟩ := ih t2 ht k u hmem
          exact ⟨u2, hfu, List.mem_cons_of_mem _ hmem2⟩

theorem sweepAll_mem_rev (f : Nat → RawUser → Except Unit RawUser) :
    ∀ (l l2 : List (Nat × RawUser)), sweepAll f l = Except.ok l2 →
      ∀ k u2, (k, u2) ∈ l2 → ∃ u, (k, u) ∈ l ∧ f k u = Except.ok u2 := by
  intro l
  induction l with
  | nil =>
    intro l2 h k u2 hm
    unfold sweepAll at h
    cases h
    simp at hm
  | cons a t ih =>
    intro l2 h k u2 hm
    obtain ⟨ka, ua⟩ := a
    unfold sweepAll at h
    rcases hf : f ka ua with _ | ua2
    · rw [hf] at h
      exact Except.noConfusion h
    · rw [hf] at h
      rcases ht : sweepAll f t with _ | t2
      · rw [ht] at h
        exact Except.noConfusion h
      · rw [ht] at h
        cases h
        rcases List.mem_cons.1 hm with heq | hmem
        · obtain ⟨hk, hu⟩ := Prod.mk.injEq .. ▸ heq
          subst hk
          subst hu
          exact ⟨ua, List.mem_cons_self _ _, hf⟩
        · obtain ⟨u, hmem2, hfu⟩ := ih t2 ht k u2 hmem
          exact ⟨u, List.mem_cons_of_mem _ hmem2, hfu⟩

def rawC7bad : RawUser :=
  { username := ("x"), subscription_tier := ("premium"),
    subscription_ends := some (RawTime.valid 50), daily_downloads := 3,
    total_downloads := 1, last_reset := none }

/-- Claim C7 counterexample: one record whose `last_reset` field is missing
makes phase 1 raise (`fromisoformat(None)`), and because no phase is
wrapped in its own exception handler, nothing is saved, the expiry sweep
never demotes the user (whose expiry 50 is long past), the stale cache
entry is never pruned, and the error propagates to the caller — the phases
are not failure-isolated. -/
theorem claim_C7_counterexample :
    scheduled_tasks 100000 [(1, rawC7bad)] (fun _ => true) [(("k"), 0)] =
      ([], Except.error ()) := by
  rfl

/-- Claim C7 (amended): the swallowed best-effort notification is the only
failure the sweep tolerates — the run is completely independent of the
notification outcomes, and on records that parse, all three phases run:
both user snapshots are saved, every user with a past expiry is demoted to
Free with a cleared expiry in the final (and saved) records, and the cache
is pruned to entries younger than 24 hours.  But (per the counterexample)
a failure inside a phase other than the notification aborts the remaining
phases and raises to the caller; the phases are not failure-isolated. -/
theorem claim_C7_sweep_behaviour (now : Nat) (users : List (Nat × RawUser))
    (notify notify2 : Nat → Bool) (cache : List (String × Nat)) :
    scheduled_tasks now users notify cache = scheduled_tasks now users notify2 cache ∧
    ((∀ ku ∈ users, rawParses ku.2 = true) →
      ∃ users1 users2,
        scheduled_tasks now users notify cache =
          ([users1, users2],
            Except.ok (users2,
              cache.filter (fun kv => decide (now - kv.2 < Config.CACHE_DURATION)))) ∧
        ∀ k u e, (k, u) ∈ users → u.subscription_ends = some (RawTime.valid e) →
          e < now →
          ∃ u2, (k, u2) ∈ users2 ∧ u2.subscription_tier = ("free") ∧
            u2.subscription_ends = none) := by
  constructor
  · rfl
  · intro hall
    obtain ⟨users1, h1⟩ := sweepAll_ok (fun _ u => quotaResetUser now u) users
      (fun k u hm => quotaResetUser_ok now u (hall (k, u) hm))
    have hphase2 : ∀ k u1, (k, u1) ∈ users1 →
        ∃ v, expirySweepUser now (notify k) u1 = Except.ok v := by
      intro k u1 hm1
      obtain ⟨u0, hm0, hf0⟩ := sweepAll_mem_rev _ users users1 h1 k u1 hm1
      have hends : u1.subscription_ends = u0.subscription_ends :=
        quotaResetUser_keeps_ends now u0 u1 hf0
      have hne : u1.subscription_ends ≠ some RawTime.malformed := by
        rw [hends]
        exact rawParses_ends u0 (hall (k, u0) hm0)
      exact expirySweepUser_ok now (notify k) u1 hne
    obtain ⟨users2, h2⟩ :=
      sweepAll_ok (fun k u => expirySweepUser now (notify k) u) users1 hphase2
    refine ⟨users1, users2, ?_, ?_⟩
    · unfold scheduled_tasks
      rw [h1]
      dsimp only
      rw [h2]
    · intro k u e hm he hlt
      obtain ⟨u1, hf1, hm1⟩ := sweepAll_mem _ users users1 h1 k u hm
      have hends : u1.subscription_ends = u.subscription_ends :=
        quotaResetUser_keeps_ends now u u1 hf1
      have he1 : u1.subscription_ends = some (RawTime.valid e) := by rw [hends, he]
      obtain ⟨u2, hf2, hm2⟩ := sweepAll_mem _ users1 users2 h2 k u1 hm1
      rw [expirySweepUser_demotes now (notify k) u1 e he1 hlt] at hf2
      cases hf2
      exact ⟨_, hm2, rfl, rfl⟩

def rawC7exp : RawUser :=
  { username := ("frank"), subscription_tier := ("premium"),
    subscription_ends := some (RawTime.valid 10), daily_downloads := 2,
    total_downloads := 9, last_reset := some (RawTime.valid 95) }

/-- Claim C7 witness: the sweep over a user whose expiry (10) is long past
runs identically whether the notification succeeds or fails, completes all
three phases with both saves, and demotes the user to Free with the expiry
cleared in the persisted result. -/
theorem claim_C7_witness :
    scheduled_tasks 100000 [(5, rawC7exp)] (fun _ => true) [(("k"), 0)] =
      scheduled_tasks 100000 [(5, rawC7exp)] (fun _ => false) [(("k"), 0)] ∧
    ∃ users1 users2,
      scheduled_tasks 100000 [(5, rawC7exp)] (fun _ => true) [(("k"), 0)] =
        ([users1, users2],
          Except.ok (users2,
            ([(("k"), 0)] : List (String × Nat)).filter
              (fun kv => decide (100000 - kv.2 < Config.CACHE_DURATION)))) ∧
      ∀ k u e, (k, u) ∈ [(5, rawC7exp)] →
        u.subscription_ends = some (RawTime.valid e) → e < 100000 →
        ∃ u2, (k, u2) ∈ users2 ∧ u2.subscription_tier = ("free") ∧
          u2.subscription_ends = none := by
  have h := claim_C7_sweep_behaviour 100000 [(5, rawC7exp)] (fun _ => true)
    (fun _ => false) [(("k"), 0)]
  exact ⟨h.1, h.2 (by decide)⟩
